import Mathlib

/-!
Verification of the settings registry of `src/plugins/supported/Settings/memory.js`
(the `MemorySettings` class of the Skywriter/Bespin repository).

Embedding conventions:

* JavaScript primitive values are modelled by `JSValue` (numbers as `Int`;
  the claims only involve integer-valued settings).
* The per-method bodies of `memory.js` (`addSetting`, `resetValue`,
  `_getSettingNames`, `_list`, `_loadFromObject`, `_saveToObject`,
  `_defaultValues`, `_loadDefaultValues`, `_loadInitialValues`) are translated
  from the source.
* Code the repository uses but that is not under `src/` — the SproutCore
  runtime (`SC.Object`'s `get`/`set`/`addObserver`), the plugin catalog
  (`bespin:plugins`), the promise library (`Promise:core/promise`) and the
  type registry (`Types:types`) — is modelled from the spec; each such
  definition carries a doc comment saying so.
* Asynchrony is flattened to the spec's single-threaded cooperative model:
  promise continuations run after the synchronous code that created them has
  finished, with no interleaving of registry mutations.  In particular, inside
  `_loadFromObject` every `types.fromString` continuation runs only after the
  `for (var key in data)` loop has completed, which is what makes the
  function-scoped `key` variable observable.
-/

namespace MemorySettings

/-- A JavaScript primitive value.  Numbers are modelled as integers. -/
inductive JSValue where
  | undefined : JSValue
  | null : JSValue
  | bool : Bool → JSValue
  | num : Int → JSValue
  | str : String → JSValue
deriving DecidableEq, Repr

/-- JavaScript truthiness: `undefined`, `null`, `false`, `0` and `""` are falsy. -/
def jsTruthy : JSValue → Bool
  | .undefined => false
  | .null => false
  | .bool b => b
  | .num n => n != 0
  | .str s => s != ""

/-- The JavaScript `!` operator: always produces a boolean. -/
def jsNot (v : JSValue) : JSValue := .bool (!jsTruthy v)

/-- JavaScript strict equality `===` on primitive values (no NaN in this model,
so it coincides with structural equality). -/
def jsStrictEq (a b : JSValue) : Bool := a == b

/-- Modelled from the spec: a resolved type descriptor, as provided by the
`Types:types` module (not under `src/`).  Per the spec's TypeResolver contract
it can validate a value, parse a raw value into a typed value (parsing may
fail), and serialize a value to a string (serialization may fail on values
outside the type). -/
structure SettingType where
  isValid : JSValue → Bool
  fromString : JSValue → Option JSValue
  toString : JSValue → Option String

/-- Modelled from the spec: the type registry maps a type name to a resolved
type descriptor, or to nothing when the name is unknown (`UnknownTypeError`). -/
def TypeEnv : Type := String → Option SettingType

/-- A setting declaration, the `settingExt` objects of `memory.js`:
`{ name: "tabsize", type: "number", defaultValue: 4 }`.  `name` and `type` are
property/type-name strings; `defaultValue` is an arbitrary JS value (it may be
`undefined`, which matters for the unreachable guard in `addSetting`). -/
structure SettingExt where
  name : String
  type : String
  defaultValue : JSValue
deriving DecidableEq, Repr

/-- Errors raised on the settings paths.  The first two are the spec's
read/write errors; the last four are the four `throw` sites of
`addSetting` in `memory.js`, in source order. -/
inductive SettingsError where
  | ValidationError
  | UnknownSettingError
  | MissingNameError
  | UnknownTypeError
  | MissingDefaultError
  | InvalidDefaultError
deriving DecidableEq, Repr

/-- A JavaScript runtime error (used where `memory.js` references an
undeclared identifier). -/
inductive JsRuntimeError where
  | referenceError : String → JsRuntimeError
deriving DecidableEq, Repr

/-- The state of the `MemorySettings` object together with its collaborators:
`settings` is the catalog's `"setting"` extension point in declaration order
(modelled from the spec: the catalog is `bespin:plugins`, not under `src/`);
`values` are the properties stored on the SC object; `observers` lists the
names carrying an observer attached by `addSetting` (with multiplicity);
`changeLog` records each invocation of `this._changeValue(name, value)` — the
spec's `onChange` change-notification callback — in order. -/
structure RegistryState where
  settings : List SettingExt
  values : List (String × JSValue)
  observers : List String
  changeLog : List (String × JSValue)
deriving DecidableEq, Repr

/-- Look up the registered setting declaration for a name, as the catalog
does (first declaration with that name). -/
def findDecl (decls : List SettingExt) (n : String) : Option SettingExt :=
  decls.find? (fun d => d.name == n)

/-- Update an association list in place, appending when the key is new. -/
def upsert (kvs : List (String × JSValue)) (k : String) (v : JSValue) :
    List (String × JSValue) :=
  match kvs with
  | [] => [(k, v)]
  | (k', v') :: rest =>
      if k' == k then (k, v) :: rest else (k', v') :: upsert rest k v

/-- Modelled from the spec: `this.get(name)` (SproutCore's `SC.Object.get`,
not under `src/`).  Per spec §4.2 it returns the current value, or absent for
an unregistered/never-set name, and never validates. -/
def get (s : RegistryState) (n : String) : Option JSValue :=
  s.values.lookup n

/-- Modelled from the spec: `this.set(name, value)` (SproutCore's
`SC.Object.set` plus its observer machinery, not under `src/`).  Per spec
§4.2: fails with `UnknownSettingError` when `name` is unregistered, fails
with `ValidationError` when `value` fails the entry's type validator, and on
success updates `currentValue` and then synchronously fires each observer
attached to `name`; the observer installed by `addSetting` invokes
`this._changeValue(settingExt.name, this.get(settingExt.name))`, recorded in
`changeLog`.  On failure the state is unchanged (no partial write). -/
def set (env : TypeEnv) (s : RegistryState) (n : String) (v : JSValue) :
    RegistryState × Option SettingsError :=
  match findDecl s.settings n with
  | none => (s, some .UnknownSettingError)
  | some decl =>
      match env decl.type with
      | none => (s, some .UnknownTypeError)
      | some ty =>
          if ty.isValid v then
            ({ s with
                values := upsert s.values n v,
                changeLog :=
                  s.changeLog ++ List.replicate (s.observers.count n) (n, v) },
              none)
          else (s, some .ValidationError)

/-- `MemorySettings.addSetting` (memory.js lines 107–139), with the
asynchronous `types.getTypeExt(...).then` and `typeExt.load` steps flattened.
The four guards appear in source order:
1. `if (!settingExt.name) throw "Settings need 'name' members"`;
2. `if (!typeExt) throw "choice.type should be one of ..."`;
3. `if (!settingExt.defaultValue === undefined) throw "Settings need
   'defaultValue' members"` — note the source negates `settingExt.defaultValue`
   before comparing with `undefined`;
4. `if (!type.isValid(settingExt.defaultValue)) throw "Default value ..."`.
Then `this.set(settingExt.name, settingExt.defaultValue)` and
`this.addObserver(settingExt.name, ...)` attach the change observer.
There is no duplicate-name check anywhere in the function. -/
def addSetting (env : TypeEnv) (s : RegistryState) (ext : SettingExt) :
    RegistryState × Option SettingsError :=
  if !jsTruthy (.str ext.name) then (s, some .MissingNameError)
  else
    match env ext.type with
    | none => (s, some .UnknownTypeError)
    | some ty =>
        if jsStrictEq (jsNot ext.defaultValue) .undefined then
          (s, some .MissingDefaultError)
        else if !ty.isValid ext.defaultValue then
          (s, some .InvalidDefaultError)
        else
          match set env s ext.name ext.defaultValue with
          | (s1, some e) => (s1, some e)
          | (s1, none) =>
              ({ s1 with observers := s1.observers ++ [ext.name] }, none)

/-- The identifiers in scope inside `resetValue` (memory.js lines 144–151):
its parameter, plus the module-level bindings of memory.js.  The body reads
`choice._settings[key]`, and `choice` is not among them — the doc comment of
`addSetting` shows the parameter was renamed from `choice` to `settingExt`
without updating `resetValue`. -/
def resetValueScope : List String :=
  ["key", "SC", "catalog", "Promise", "groupPromises", "types", "exports"]

/-- `MemorySettings.resetValue` (memory.js lines 144–151).  Its first
statement, `var setting = choice._settings[key];`, reads the undeclared
identifier `choice`, so every call throws `ReferenceError: choice is not
defined` before touching any state; neither branch below it is reachable. -/
def resetValue (s : RegistryState) (key : String) :
    RegistryState × Option JsRuntimeError :=
  if "choice" ∈ resetValueScope then
    (s, none)
  else
    (s, some (.referenceError "choice"))

/-- `MemorySettings._getSettingNames` (memory.js lines 156–162): pushes the
name of each `"setting"` extension, in the catalog's declaration order
(the catalog enumeration is modelled from the spec: `bespin:plugins` is not
under `src/`). -/
def _getSettingNames (s : RegistryState) : List String :=
  s.settings.map (fun d => d.name)

/-- The identifiers in scope inside the `forEach` callback of `_list`
(memory.js lines 167–176): the callback parameter `key`, the local `reply`,
and the module-level bindings.  The body pushes
`{ 'key': prop, 'value': this.get(prop) }`, and `prop` is not among them. -/
def listCallbackScope : List String :=
  ["key", "reply", "SC", "catalog", "Promise", "groupPromises", "types", "exports"]

/-- `MemorySettings._list` (memory.js lines 167–176).  For each setting name
the callback's first expression reads the undeclared identifier `prop`, so the
first iteration throws `ReferenceError: prop is not defined`; only an empty
registry returns (the empty list). -/
def _list (s : RegistryState) :
    Except JsRuntimeError (List (String × Option JSValue)) :=
  (_getSettingNames s).foldl
    (fun acc _key =>
      acc.bind (fun reply =>
        if "prop" ∈ listCallbackScope then .ok reply
        else .error (.referenceError "prop")))
    (.ok [])

/-- Parse one snapshot entry the way the loop body of `_loadFromObject` does:
look the key up among the registered settings (the source calls
`catalog.getExtensionByKey("type", key)`; modelled from the spec, which
matches snapshot keys against the registered settings), and when a declaration
is found, run `types.fromString(value, settingExt.type)` (modelled from the
spec's TypeResolver `parse`).  `none` means no promise was created (no
matching setting) or the parse promise failed, so the success continuation
never runs for this entry. -/
def parseSnapshotEntry (env : TypeEnv) (decls : List SettingExt)
    (kv : String × JSValue) : Option JSValue :=
  match findDecl decls kv.1 with
  | none => none
  | some decl =>
      match env decl.type with
      | none => none
      | some ty => ty.fromString kv.2

/-- Result of `_loadFromObject`: the final state, the `this.set(key, value)`
calls the parse continuations performed (in order), and whether the returned
reply promise resolved. -/
structure LoadResult where
  state : RegistryState
  setCalls : List (String × JSValue)
  completed : Bool
deriving DecidableEq, Repr

/-- `MemorySettings._loadFromObject` (memory.js lines 204–230).
Phase 1 is the `for (var key in data)` loop: it enumerates `data` in insertion
order, creating a `types.fromString` promise for every key with a matching
setting.  `key` is declared with `var`, so it is a single function-scoped
variable; after the loop it holds the last enumerated key.  Phase 2 runs the
success continuations `function(value) { this.set(key, value); }` once the
asynchronous parses resolve — after the loop — so each one calls
`this.set` with that shared final `key`, not the key its value came from.
A continuation whose `set` fails leaves the state unchanged, and the reply
promise resolves regardless (modelled from the spec: the promise group of
`Promise:core/promise` is not under `src/`; per spec §4.3 per-key failures
are isolated and do not fail the load). -/
def _loadFromObject (env : TypeEnv) (s : RegistryState)
    (data : List (String × JSValue)) : LoadResult :=
  let parsed := data.filterMap (parseSnapshotEntry env s.settings)
  match (data.map Prod.fst).getLast? with
  | none => { state := s, setCalls := [], completed := true }
  | some lastKey =>
      { state := parsed.foldl (fun st v => (set env st lastKey v).1) s,
        setCalls := parsed.map (fun v => (lastKey, v)),
        completed := true }

/-- `MemorySettings._defaultValues` (memory.js lines 262–268): the object
`{ name: defaultValue }` over all registered settings, in declaration order. -/
def _defaultValues (s : RegistryState) : List (String × JSValue) :=
  s.settings.map (fun d => (d.name, d.defaultValue))

/-- `MemorySettings._loadDefaultValues` (memory.js lines 197–199). -/
def _loadDefaultValues (env : TypeEnv) (s : RegistryState) : LoadResult :=
  _loadFromObject env s (_defaultValues s)

/-- `MemorySettings._loadInitialValues` (memory.js lines 190–192), the step
the constructor schedules with `setTimeout(..., 10)`; the base class loads
only the defaults. -/
def _loadInitialValues (env : TypeEnv) (s : RegistryState) : LoadResult :=
  _loadDefaultValues env s

/-- Result of `_saveToObject`: the exported `reply` object and whether the
reply promise resolved. -/
structure SaveResult where
  reply : List (String × String)
  completed : Bool
deriving DecidableEq, Repr

/-- `MemorySettings._saveToObject` (memory.js lines 235–257).  For each
registered name (a fresh `forEach` parameter per iteration, so no shared-`key`
capture here): read the current value with `this.get(key)` (absent is
JavaScript `undefined`), look the setting up (the source calls
`catalog.getExtensionByKey("type", key)`; modelled from the spec as the
registered-settings lookup), serialize with `types.toString(value,
settingExt.type)` (modelled from the spec's TypeResolver `serialize`), and on
success store `reply[key] = value`.  A failed serialization leaves its key out
of `reply`; the reply promise resolves after all per-key promises are settled
(modelled from the spec, as for `_loadFromObject`). -/
def _saveToObject (env : TypeEnv) (s : RegistryState) : SaveResult :=
  { reply :=
      (_getSettingNames s).filterMap (fun key =>
        match findDecl s.settings key with
        | none => none
        | some decl =>
            match env decl.type with
            | none => none
            | some ty =>
                (ty.toString ((get s key).getD .undefined)).map
                  (fun out => (key, out))),
    completed := true }

/-- Read a nonempty list of decimal digits as a natural number. -/
def digitsToNat (cs : List Char) : Option Nat :=
  if cs ≠ [] ∧ cs.all (fun c => c.isDigit) then
    some (cs.foldl (fun a c => a * 10 + (c.toNat - 48)) 0)
  else none

/-- Parse a decimal string (with optional leading minus) into an integer. -/
def strToInt? (s : String) : Option Int :=
  match s.toList with
  | [] => none
  | c :: cs =>
      if c = Char.ofNat 45 then (digitsToNat cs).map (fun n => -(n : Int))
      else (digitsToNat (c :: cs)).map (fun n => (n : Int))

/-- The `"number"` type of the examples: valid values are numbers; parsing
accepts a number or a decimal string; serialization is decimal notation. -/
def numberType : SettingType :=
  { isValid := fun v => match v with | .num _ => true | _ => false,
    fromString := fun v =>
      match v with
      | .num n => some (.num n)
      | .str s => (strToInt? s).map JSValue.num
      | _ => none,
    toString := fun v =>
      match v with | .num n => some (ToString.toString n) | _ => none }

/-- The `"text"` type of the examples: valid values are strings. -/
def textType : SettingType :=
  { isValid := fun v => match v with | .str _ => true | _ => false,
    fromString := fun v => match v with | .str s => some (.str s) | _ => none,
    toString := fun v => match v with | .str s => some s | _ => none }

/-- A concrete type registry resolving `"number"` and `"text"`. -/
def demoEnv : TypeEnv := fun t =>
  if t = "number" then some numberType
  else if t = "text" then some textType
  else none

/-- The `tabsize` declaration of the spec's examples. -/
def tabsizeExt : SettingExt :=
  { name := "tabsize", type := "number", defaultValue := .num 4 }

/-- A registry with only `tabsize` registered (default applied, observer
attached, no change notifications yet). -/
def tabsizeState : RegistryState :=
  { settings := [tabsizeExt],
    values := [("tabsize", .num 4)],
    observers := ["tabsize"],
    changeLog := [] }


/-- A second `tabsize` declaration with a different default, for the
duplicate-registration experiment. -/
def tabsizeExt8 : SettingExt :=
  { name := "tabsize", type := "number", defaultValue := .num 8 }

/-- The `fontsize` declaration (type `number`, default `10`). -/
def fontsizeExt : SettingExt :=
  { name := "fontsize", type := "number", defaultValue := .num 10 }

/-- The `theme` declaration of the save example (type `text`, default
`"dark"`). -/
def themeExt : SettingExt :=
  { name := "theme", type := "text", defaultValue := .str "dark" }

/-- A registry with `tabsize` and `fontsize` registered, defaults applied and
observers attached. -/
def twoSettingsState : RegistryState :=
  { settings := [tabsizeExt, fontsizeExt],
    values := [("tabsize", .num 4), ("fontsize", .num 10)],
    observers := ["tabsize", "fontsize"],
    changeLog := [] }

/-- The registry of the save example: settings `{tabsize: 4, theme: "dark"}`. -/
def demoSaveState : RegistryState :=
  { settings := [tabsizeExt, themeExt],
    values := [("tabsize", .num 4), ("theme", .str "dark")],
    observers := ["tabsize", "theme"],
    changeLog := [] }

/-! ## Helper lemmas -/

theorem lookup_upsert (kvs : List (String × JSValue)) (k : String) (v : JSValue) :
    (upsert kvs k v).lookup k = some v := by
  induction kvs with
  | nil => simp [upsert, List.lookup]
  | cons hd tl ih =>
      obtain ⟨k', v'⟩ := hd
      by_cases h : k' = k
      · simp [upsert, h, List.lookup]
      · have h' : (k' == k) = false := by simp [h]
        have h'' : (k == k') = false := by simp [Ne.symm h]
        simp [upsert, h', List.lookup, h'', ih]

theorem jsStrictEq_jsNot_undefined (v : JSValue) :
    jsStrictEq (jsNot v) JSValue.undefined = false := rfl

theorem set_snd_ne_missingDefault (env : TypeEnv) (s : RegistryState)
    (n : String) (v : JSValue) :
    (set env s n v).2 ≠ some SettingsError.MissingDefaultError := by
  unfold set
  split
  · simp
  · split
    · simp
    · split <;> simp

theorem set_success_shape (env : TypeEnv) (s : RegistryState) (n : String)
    (v : JSValue) (hok : (set env s n v).2 = none) :
    (set env s n v).1
      = { s with
            values := upsert s.values n v,
            changeLog :=
              s.changeLog ++ List.replicate (s.observers.count n) (n, v) } := by
  unfold set at hok ⊢
  split at hok
  · simp at hok
  · split at hok
    · simp at hok
    · split at hok
      · simp_all
      · simp at hok

/-! ## Claim theorems -/

/-- Claim C1: for every registered setting and every value that fails the
type validator, `set(name, value)` fails with `ValidationError`, the state is
unchanged, and `get(name)` returns the same value as before the call. -/
theorem c1_set_invalid_value_rejected (env : TypeEnv) (s : RegistryState)
    (n : String) (decl : SettingExt) (ty : SettingType) (v : JSValue)
    (hdecl : findDecl s.settings n = some decl)
    (hty : env decl.type = some ty)
    (hinv : ty.isValid v = false) :
    set env s n v = (s, some SettingsError.ValidationError) ∧
    get (set env s n v).1 n = get s n := by
  have h : set env s n v = (s, some SettingsError.ValidationError) := by
    unfold set
    simp [hdecl, hty, hinv]
  exact ⟨h, by rw [h]⟩

/-- Witness for C1: on the `tabsize` registry, setting the string `"hello"`
(invalid for `number`) fails with `ValidationError` and leaves `get` alone. -/
theorem c1_witness :
    (findDecl tabsizeState.settings "tabsize" = some tabsizeExt ∧
     demoEnv tabsizeExt.type = some numberType ∧
     numberType.isValid (JSValue.str "hello") = false) ∧
    (set demoEnv tabsizeState "tabsize" (JSValue.str "hello")
        = (tabsizeState, some SettingsError.ValidationError) ∧
     get (set demoEnv tabsizeState "tabsize" (JSValue.str "hello")).1 "tabsize"
        = get tabsizeState "tabsize") :=
  ⟨⟨by decide, rfl, rfl⟩,
    c1_set_invalid_value_rejected demoEnv tabsizeState "tabsize" tabsizeExt
      numberType (JSValue.str "hello") (by decide) rfl rfl⟩

/-- Claim C2: for every registered setting (with its one observer attached by
`addSetting`) and every value valid under its type, `set(name, value)`
succeeds, `get(name)` then returns `value`, and exactly one change
notification `(name, value)` is recorded. -/
theorem c2_set_valid_value_roundtrip (env : TypeEnv) (s : RegistryState)
    (n : String) (decl : SettingExt) (ty : SettingType) (v : JSValue)
    (hdecl : findDecl s.settings n = some decl)
    (hty : env decl.type = some ty)
    (hvalid : ty.isValid v = true)
    (hobs : s.observers.count n = 1) :
    (set env s n v).2 = none ∧
    get (set env s n v).1 n = some v ∧
    (set env s n v).1.changeLog = s.changeLog ++ [(n, v)] := by
  have h : set env s n v
      = ({ s with
            values := upsert s.values n v,
            changeLog :=
              s.changeLog ++ List.replicate (s.observers.count n) (n, v) },
          none) := by
    unfold set
    simp [hdecl, hty, hvalid]
  refine ⟨by rw [h], ?_, ?_⟩
  · rw [h]
    exact lookup_upsert s.values n v
  · rw [h, hobs]
    simp

/-- Witness for C2: on the `tabsize` registry, `set("tabsize", 2)` succeeds,
`get` returns `2`, and the change log records exactly `("tabsize", 2)`. -/
theorem c2_witness :
    (findDecl tabsizeState.settings "tabsize" = some tabsizeExt ∧
     demoEnv tabsizeExt.type = some numberType ∧
     numberType.isValid (JSValue.num 2) = true ∧
     tabsizeState.observers.count "tabsize" = 1) ∧
    ((set demoEnv tabsizeState "tabsize" (JSValue.num 2)).2 = none ∧
     get (set demoEnv tabsizeState "tabsize" (JSValue.num 2)).1 "tabsize"
        = some (JSValue.num 2) ∧
     (set demoEnv tabsizeState "tabsize" (JSValue.num 2)).1.changeLog
        = tabsizeState.changeLog ++ [("tabsize", JSValue.num 2)]) :=
  ⟨⟨by decide, rfl, rfl, by decide⟩,
    c2_set_valid_value_roundtrip demoEnv tabsizeState "tabsize" tabsizeExt
      numberType (JSValue.num 2) (by decide) rfl rfl (by decide)⟩

/-- Claim C3 (code bug): `resetValue` never restores the default and never
raises `UnknownSettingError` — its first statement reads the undeclared
identifier `choice`, so every call throws `ReferenceError: choice is not
defined` and leaves the state untouched. -/
theorem c3_resetValue_throws_referenceError (s : RegistryState) (key : String) :
    resetValue s key = (s, some (JsRuntimeError.referenceError "choice")) := by
  have h : ("choice" ∈ resetValueScope) = False := by
    simp [resetValueScope]
  simp [resetValue, h]

/-- Claim C9 (code bug): `_list` never returns the `(name, value)` pairs —
for any nonempty registry the first iteration of its `forEach` reads the
undeclared identifier `prop` and throws `ReferenceError: prop is not
defined`. -/
theorem c9_list_throws_referenceError (s : RegistryState)
    (h : s.settings ≠ []) :
    _list s = Except.error (JsRuntimeError.referenceError "prop") := by
  have hscope : ("prop" ∈ listCallbackScope) = False := by
    simp [listCallbackScope]
  cases hs : s.settings with
  | nil => exact absurd hs h
  | cons d rest =>
      unfold _list _getSettingNames
      rw [hs]
      simp only [List.map_cons, List.foldl_cons]
      have hstep :
          (Except.ok ([] : List (String × Option JSValue))).bind
              (fun reply =>
                if "prop" ∈ listCallbackScope then Except.ok reply
                else Except.error (JsRuntimeError.referenceError "prop"))
            = Except.error (JsRuntimeError.referenceError "prop") := by
        simp [hscope, Except.bind]
      rw [hstep]
      induction rest.map (fun d => d.name) with
      | nil => rfl
      | cons a tl ih => simpa [Except.bind] using ih

/-- Witness for C9: on the registry with `tabsize` registered, `_list`
throws `ReferenceError: prop is not defined`. -/
theorem c9_witness :
    tabsizeState.settings ≠ [] ∧
    _list tabsizeState = Except.error (JsRuntimeError.referenceError "prop") :=
  ⟨by decide, c9_list_throws_referenceError tabsizeState (by decide)⟩

/-- Claim C10: the `throw "Settings need 'defaultValue' members"` branch of
`addSetting` is unreachable: for every JS value `v` the guard
`!v === undefined` is false (`!v` is always a boolean), so no call of
`addSetting` — including one whose `defaultValue` is `undefined` — ever
reports a missing default; such a declaration proceeds to the type
validator. -/
theorem c10_missing_default_guard_unreachable :
    (∀ v : JSValue, jsStrictEq (jsNot v) JSValue.undefined = false) ∧
    ∀ (env : TypeEnv) (s : RegistryState) (ext : SettingExt),
      (addSetting env s ext).2 ≠ some SettingsError.MissingDefaultError := by
  refine ⟨jsStrictEq_jsNot_undefined, ?_⟩
  intro env s ext
  unfold addSetting
  rw [jsStrictEq_jsNot_undefined]
  split
  · simp
  · split
    · simp
    · simp only [Bool.false_eq_true, if_false]
      split
      · simp
      · split
        · next s1 e heq =>
            have h2 := set_snd_ne_missingDefault env s ext.name ext.defaultValue
            rw [heq] at h2
            exact h2
        · next s1 heq => simp

theorem loadFromObject_completed (env : TypeEnv) (s : RegistryState)
    (data : List (String × JSValue)) :
    (_loadFromObject env s data).completed = true := by
  unfold _loadFromObject
  split <;> rfl

theorem loadFromObject_setCalls_values (env : TypeEnv) (s : RegistryState)
    (data : List (String × JSValue)) :
    (_loadFromObject env s data).setCalls.map Prod.snd
      = data.filterMap (parseSnapshotEntry env s.settings) := by
  cases data with
  | nil => simp [_loadFromObject]
  | cons a l =>
      unfold _loadFromObject
      cases h : ((a :: l).map Prod.fst).getLast? with
      | none => simp at h
      | some k => simp

theorem findDecl_eq_of_nodup (l : List SettingExt) (d : SettingExt)
    (hd : d ∈ l) (hnd : (l.map (fun e => e.name)).Nodup) :
    findDecl l d.name = some d := by
  induction l with
  | nil => cases hd
  | cons a tl ih =>
      rw [List.map_cons, List.nodup_cons] at hnd
      obtain ⟨hna, hnd2⟩ := hnd
      rcases List.mem_cons.mp hd with rfl | hmem
      · simp [findDecl]
      · have hne : a.name ≠ d.name := by
          intro h
          exact hna (h ▸ List.mem_map_of_mem (fun e => e.name) hmem)
        have hbeq : (a.name == d.name) = false := by
          simp [hne]
        unfold findDecl at ih ⊢
        rw [List.find?_cons, hbeq]
        exact ih hmem hnd2

/-- Claim C4, counterexample: on a registry where `tabsize` is already
registered with value `4`, a second `addSetting` for `tabsize` (default `8`)
raises no error at all — in particular no `DuplicateSettingError` — and the
first registration is not left untouched: the value becomes `8`. -/
theorem c4_counterexample :
    (addSetting demoEnv tabsizeState tabsizeExt8).2 = none ∧
    get (addSetting demoEnv tabsizeState tabsizeExt8).1 "tabsize"
      = some (JSValue.num 8) := by
  constructor
  · decide
  · decide

/-- Claim C4 as amended: registering a name that is already registered does
not fail — `addSetting` has no duplicate check.  The second call validates its
default against the registered type, overwrites the current value with the new
default, and attaches one more observer to the name. -/
theorem c4_duplicate_registration_overwrites (env : TypeEnv)
    (s : RegistryState) (ext decl : SettingExt) (ty ty2 : SettingType)
    (hname : ext.name ≠ "")
    (hdecl : findDecl s.settings ext.name = some decl)
    (hty : env ext.type = some ty)
    (hvalid : ty.isValid ext.defaultValue = true)
    (hty2 : env decl.type = some ty2)
    (hvalid2 : ty2.isValid ext.defaultValue = true) :
    (addSetting env s ext).2 = none ∧
    get (addSetting env s ext).1 ext.name = some ext.defaultValue ∧
    (addSetting env s ext).1.observers.count ext.name
      = s.observers.count ext.name + 1 := by
  have h1 : (!jsTruthy (JSValue.str ext.name)) = false := by
    simp [jsTruthy, hname]
  have hset : set env s ext.name ext.defaultValue
      = ({ s with
            values := upsert s.values ext.name ext.defaultValue,
            changeLog := s.changeLog
              ++ List.replicate (s.observers.count ext.name)
                  (ext.name, ext.defaultValue) }, none) := by
    unfold set
    simp [hdecl, hty2, hvalid2]
  have hadd : addSetting env s ext
      = ({ s with
            values := upsert s.values ext.name ext.defaultValue,
            observers := s.observers ++ [ext.name],
            changeLog := s.changeLog
              ++ List.replicate (s.observers.count ext.name)
                  (ext.name, ext.defaultValue) }, none) := by
    unfold addSetting
    rw [jsStrictEq_jsNot_undefined]
    simp [h1, hty, hvalid, hset]
  rw [hadd]
  refine ⟨rfl, ?_, ?_⟩
  · exact lookup_upsert s.values ext.name ext.defaultValue
  · simp [List.count_append]

/-- Witness for the amended C4: the concrete duplicate registration of
`tabsize` succeeds, stores `8`, and doubles the observers on `tabsize`. -/
theorem c4_witness :
    (tabsizeExt8.name ≠ "" ∧
     findDecl tabsizeState.settings tabsizeExt8.name = some tabsizeExt ∧
     demoEnv tabsizeExt8.type = some numberType ∧
     numberType.isValid tabsizeExt8.defaultValue = true ∧
     demoEnv tabsizeExt.type = some numberType ∧
     numberType.isValid tabsizeExt8.defaultValue = true) ∧
    ((addSetting demoEnv tabsizeState tabsizeExt8).2 = none ∧
     get (addSetting demoEnv tabsizeState tabsizeExt8).1 tabsizeExt8.name
        = some tabsizeExt8.defaultValue ∧
     (addSetting demoEnv tabsizeState tabsizeExt8).1.observers.count
          tabsizeExt8.name
        = tabsizeState.observers.count tabsizeExt8.name + 1) :=
  ⟨⟨by decide, by decide, rfl, rfl, rfl, rfl⟩,
    c4_duplicate_registration_overwrites demoEnv tabsizeState tabsizeExt8
      tabsizeExt numberType numberType (by decide) (by decide) rfl rfl rfl rfl⟩

/-- Claim C5 (code bug): `_loadFromObject` does not set each matching key to
its own parsed value.  The parse continuations close over the single
function-scoped loop variable `key`, which after the loop holds the last
enumerated key, so every parsed value is applied to that key.  With `tabsize`
and `fontsize` registered and the snapshot mapping `tabsize` to `"2"` and
`fontsize` to `"8"`, `tabsize` keeps `4` and both parsed values (`2`, then
`8`) land on `fontsize`.  The spec example happens to work only because its
matching key comes last: loading `unknownKey` then `tabsize` does yield
`get("tabsize") == 2`, ignoring the unknown key with no error. -/
theorem c5_load_applies_values_to_final_loop_key :
    (get (_loadFromObject demoEnv twoSettingsState
          [("tabsize", JSValue.str "2"), ("fontsize", JSValue.str "8")]).state
        "tabsize" = some (JSValue.num 4) ∧
     get (_loadFromObject demoEnv twoSettingsState
          [("tabsize", JSValue.str "2"), ("fontsize", JSValue.str "8")]).state
        "fontsize" = some (JSValue.num 8) ∧
     (_loadFromObject demoEnv twoSettingsState
          [("tabsize", JSValue.str "2"), ("fontsize", JSValue.str "8")]).setCalls
        = [("fontsize", JSValue.num 2), ("fontsize", JSValue.num 8)] ∧
     (_loadFromObject demoEnv twoSettingsState
          [("tabsize", JSValue.str "2"), ("fontsize", JSValue.str "8")]).completed
        = true) ∧
    (get (_loadFromObject demoEnv tabsizeState
          [("unknownKey", JSValue.str "x"), ("tabsize", JSValue.str "2")]).state
        "tabsize" = some (JSValue.num 2) ∧
     (_loadFromObject demoEnv tabsizeState
          [("unknownKey", JSValue.str "x"), ("tabsize", JSValue.str "2")]).completed
        = true) := by
  decide

/-- Claim C6: a parse failure for one snapshot key is isolated.  The load
operation always resolves its completion promise, and the values applied by
the continuations are exactly those of the other keys that parse
successfully — the failing key contributes nothing and blocks nothing. -/
theorem c6_parse_failure_is_isolated (env : TypeEnv) (s : RegistryState)
    (d1 d2 : List (String × JSValue)) (kb : String) (vb : JSValue)
    (hfail : parseSnapshotEntry env s.settings (kb, vb) = none) :
    (_loadFromObject env s (d1 ++ (kb, vb) :: d2)).completed = true ∧
    (_loadFromObject env s (d1 ++ (kb, vb) :: d2)).setCalls.map Prod.snd
      = (_loadFromObject env s d1).setCalls.map Prod.snd
        ++ (_loadFromObject env s d2).setCalls.map Prod.snd := by
  refine ⟨loadFromObject_completed env s _, ?_⟩
  rw [loadFromObject_setCalls_values, loadFromObject_setCalls_values,
    loadFromObject_setCalls_values]
  rw [List.filterMap_append]
  simp [List.filterMap_cons, hfail]

/-- Witness for C6: loading `tabsize`, then a `fontsize` string that fails to
parse as a number, then an unregistered `theme`: the load completes and the
applied values are exactly those of the surrounding keys. -/
theorem c6_witness :
    parseSnapshotEntry demoEnv twoSettingsState.settings
        ("fontsize", JSValue.str "x") = none ∧
    ((_loadFromObject demoEnv twoSettingsState
        ([("tabsize", JSValue.str "2")]
          ++ ("fontsize", JSValue.str "x") :: [("theme", JSValue.str "dark")])).completed
        = true ∧
     (_loadFromObject demoEnv twoSettingsState
        ([("tabsize", JSValue.str "2")]
          ++ ("fontsize", JSValue.str "x") :: [("theme", JSValue.str "dark")])).setCalls.map
          Prod.snd
        = (_loadFromObject demoEnv twoSettingsState
            [("tabsize", JSValue.str "2")]).setCalls.map Prod.snd
          ++ (_loadFromObject demoEnv twoSettingsState
              [("theme", JSValue.str "dark")]).setCalls.map Prod.snd) :=
  ⟨by decide,
    c6_parse_failure_is_isolated demoEnv twoSettingsState
      [("tabsize", JSValue.str "2")] [("theme", JSValue.str "dark")]
      "fontsize" (JSValue.str "x") (by decide)⟩

/-- Claim C7: `saveToObject` resolves its completion promise, and its snapshot
contains, for every registered setting (names unique, as the spec requires),
the setting current value serialized through the type to-string conversion. -/
theorem c7_save_serializes_every_setting (env : TypeEnv) (s : RegistryState)
    (hnd : (s.settings.map (fun e => e.name)).Nodup) :
    (_saveToObject env s).completed = true ∧
    ∀ d ∈ s.settings, ∀ (ty : SettingType) (v : JSValue) (out : String),
      env d.type = some ty → get s d.name = some v →
      ty.toString v = some out →
      (d.name, out) ∈ (_saveToObject env s).reply := by
  refine ⟨rfl, ?_⟩
  intro d hd ty v out hty hv hout
  unfold _saveToObject _getSettingNames
  apply List.mem_filterMap.mpr
  refine ⟨d.name, List.mem_map_of_mem (fun e => e.name) hd, ?_⟩
  rw [findDecl_eq_of_nodup s.settings d hd hnd]
  simp [hty, hv, hout]

/-- Witness for C7: the registry with settings `tabsize = 4` and
`theme = "dark"` saves with a resolved promise, and both `("tabsize", "4")`
and `("theme", "dark")` appear in the snapshot. -/
theorem c7_witness :
    (demoSaveState.settings.map (fun e => e.name)).Nodup ∧
    ((_saveToObject demoEnv demoSaveState).completed = true ∧
     ("tabsize", "4") ∈ (_saveToObject demoEnv demoSaveState).reply ∧
     ("theme", "dark") ∈ (_saveToObject demoEnv demoSaveState).reply) := by
  have h := c7_save_serializes_every_setting demoEnv demoSaveState (by decide)
  refine ⟨by decide, h.1, ?_, ?_⟩
  · exact h.2 tabsizeExt (by decide) numberType (JSValue.num 4) "4" rfl
      (by decide) (by decide)
  · exact h.2 themeExt (by decide) textType (JSValue.str "dark") "dark" rfl
      (by decide) (by decide)

/-- Claim C8: the change-notification callback `_changeValue(name, value)`
runs for every successful `set` on an observed setting (exactly one record per
`set`, the new value attached), and the deferred startup initialization
applies values through that same `set` path: loading the defaults over the
`tabsize` registry records the notification `("tabsize", 4)`. -/
theorem c8_onchange_invoked_on_successful_set (env : TypeEnv)
    (s : RegistryState) (n : String) (v : JSValue)
    (hobs : s.observers.count n = 1)
    (hok : (set env s n v).2 = none) :
    (set env s n v).1.changeLog = s.changeLog ++ [(n, v)] ∧
    (_loadInitialValues demoEnv tabsizeState).state.changeLog
      = [("tabsize", JSValue.num 4)] := by
  constructor
  · rw [set_success_shape env s n v hok]
    simp [hobs]
  · decide

/-- Witness for C8: setting `tabsize` to `2` records exactly
`("tabsize", 2)`. -/
theorem c8_witness :
    (tabsizeState.observers.count "tabsize" = 1 ∧
     (set demoEnv tabsizeState "tabsize" (JSValue.num 2)).2 = none) ∧
    ((set demoEnv tabsizeState "tabsize" (JSValue.num 2)).1.changeLog
        = tabsizeState.changeLog ++ [("tabsize", JSValue.num 2)] ∧
     (_loadInitialValues demoEnv tabsizeState).state.changeLog
        = [("tabsize", JSValue.num 4)]) :=
  ⟨⟨by decide, by decide⟩,
    c8_onchange_invoked_on_successful_set demoEnv tabsizeState "tabsize"
      (JSValue.num 2) (by decide) (by decide)⟩

end MemorySettings
